import Mathlib

/-!
Verification of the pulp task-queue core (`src/pulp/tasks/queue/base.py`).

Tasks are represented by their ids (`Nat`).  Python exceptions are modelled
by the `Except` monad over an explicit error type, Python lists by `List`,
and Python's dynamic attribute lookup (relevant because the source contains
misspelled selectors) by an explicit method-table lookup.
-/

namespace Pulp

/-- Kinds of Python exceptions that the code under study can raise. -/
inductive PyError where
  | notImplementedError
  | valueError
  | attributeError (attr : String)
  | typeError (attr : String)
deriving DecidableEq, Repr

/-- Python `list.remove(x)`: delete the first element equal to `x`,
raising `ValueError` when no element matches. -/
def pyListRemove (l : List Nat) (x : Nat) : Except PyError (List Nat) :=
  match l with
  | [] => Except.error PyError.valueError
  | y :: ys =>
    if y = x then Except.ok ys
    else (pyListRemove ys x).map (fun zs => y :: zs)

/-- A method in a Python class body: its selector and the number of its
parameters besides `self`. -/
structure PyMethod where
  name : String
  arity : Nat
deriving DecidableEq, Repr

/-- Python attribute lookup followed by a call: `AttributeError` when the
receiver has no such method, `TypeError` when the method is called with the
wrong number of arguments. -/
def callMethod (methods : List PyMethod) (name : String) (args : Nat) : Except PyError Unit :=
  match methods.find? (fun m => m.name == name) with
  | none => Except.error (PyError.attributeError name)
  | some m => if m.arity == args then Except.ok () else Except.error (PyError.typeError name)

/-- Resolve and call a sequence of method invocations in order, propagating
the first exception. -/
def runCalls (methods : List PyMethod) : List (String × Nat) → Except PyError Unit
  | [] => Except.ok ()
  | c :: rest => do
    callMethod methods c.1 c.2
    runCalls methods rest

/-- The methods defined in the body of the abstract base class `TaskQueue`
(base.py lines 24-103). -/
def taskQueueMethods : List PyMethod :=
  [⟨"_waiting_task", 1⟩, ⟨"_running_task", 1⟩, ⟨"_complete_task", 1⟩,
   ⟨"_remove_task", 1⟩, ⟨"_all_tasks", 0⟩,
   ⟨"enqueue", 1⟩, ⟨"run", 1⟩, ⟨"complete", 1⟩, ⟨"find", 1⟩]

/-- The methods resolvable on a `SchedulingTaskQueue` instance: the class's
own body (lines 125-230) followed, per Python's method resolution order, by
the `TaskQueue` base body. -/
def schedulingTaskQueueMethods : List PyMethod :=
  [⟨"_dispatch", 0⟩, ⟨"_initialize_runs", 0⟩, ⟨"_finalize_runs", 0⟩,
   ⟨"_get_tasks", 0⟩, ⟨"_pre_run", 0⟩, ⟨"_post_run", 0⟩,
   ⟨"enqueue", 1⟩, ⟨"run", 1⟩, ⟨"complete", 1⟩, ⟨"find", 1⟩] ++ taskQueueMethods

/-- The method calls one cycle of `SchedulingTaskQueue._dispatch` makes on
`self` after its timed wait (lines 157-162), with their argument counts, for
a cycle whose selection hook returns a single task. -/
def dispatchCycleCalls : List (String × Nat) :=
  [("_initial_runs", 0), ("_get_tasks", 0),
   ("_pre_run", 1), ("_run", 1), ("_post_run", 1),
   ("_finalize_runs", 0)]

/-- The methods of a `threading.RLock` object that the queue uses. -/
def rlockMethods : List PyMethod :=
  [⟨"acquire", 0⟩, ⟨"release", 0⟩]

/-- Abstract base class `TaskQueue` (lines 24-103): every storage hook and
every public operation raises `NotImplementedError`. -/
def TaskQueue.waiting_task (task : Nat) : Except PyError Unit :=
  Except.error PyError.notImplementedError

def TaskQueue.running_task (task : Nat) : Except PyError Unit :=
  Except.error PyError.notImplementedError

def TaskQueue.complete_task (task : Nat) : Except PyError Unit :=
  Except.error PyError.notImplementedError

def TaskQueue.remove_task (task : Nat) : Except PyError Unit :=
  Except.error PyError.notImplementedError

def TaskQueue.all_tasks : Except PyError (List Nat) :=
  Except.error PyError.notImplementedError

def TaskQueue.enqueue (task : Nat) : Except PyError Unit :=
  Except.error PyError.notImplementedError

def TaskQueue.run (task : Nat) : Except PyError Unit :=
  Except.error PyError.notImplementedError

def TaskQueue.complete (task : Nat) : Except PyError Unit :=
  Except.error PyError.notImplementedError

def TaskQueue.find (task_id : Nat) : Except PyError (Option Nat) :=
  Except.error PyError.notImplementedError

/-- Observable calls a `SimpleTaskQueue` makes on a task object. -/
inductive TaskCall where
  | waiting (task : Nat)
  | run (task : Nat)
deriving DecidableEq, Repr

/-- `SimpleTaskQueue.enqueue` (line 111): body is `task.waiting()`.  The
result is the trace of calls made on the task, in order. -/
def SimpleTaskQueue.enqueue (task : Nat) : List TaskCall :=
  [TaskCall.waiting task]

/-- `SimpleTaskQueue.run` (line 114): body is `task.run()`. -/
def SimpleTaskQueue.run (task : Nat) : List TaskCall :=
  [TaskCall.run task]

/-- `SimpleTaskQueue.complete` (line 117): body is `pass`. -/
def SimpleTaskQueue.complete (task : Nat) : List TaskCall :=
  []

/-- `SimpleTaskQueue.find` (line 120): always returns `None`. -/
def SimpleTaskQueue.find (task_id : Nat) : Option Nat :=
  none

/-- Hold count of the queue's re-entrant lock: `acquire` increments it. -/
def lockAcquire (lock : Nat) : Nat := lock + 1

/-- `release` decrements the hold count. -/
def lockRelease (lock : Nat) : Nat := lock - 1

/-- Python `try: body finally: self._lock.release()` executed after the lock
was acquired: the release runs on the normal path and on the raising path
alike, and the body's outcome (value or exception) is propagated.  Returns
the outcome and the lock hold count after the statement. -/
def tryFinallyRelease (body : Except PyError α) (lock : Nat) : Except PyError α × Nat :=
  match body with
  | Except.ok a => (Except.ok a, lockRelease lock)
  | Except.error e => (Except.error e, lockRelease lock)

/-- `SchedulingTaskQueue.enqueue` (lines 197-204).  The task bookkeeping
(`task.queue = self; task.waiting()`) and the abstract `_waiting_task`
storage hook are effect parameters that may raise. -/
def SchedulingTaskQueue.enqueue (taskWaiting : Except PyError Unit)
    (waitingHook : Except PyError Unit) (lock : Nat) : Except PyError Unit × Nat :=
  tryFinallyRelease (do taskWaiting; waitingHook) (lockAcquire lock)

/-- `SchedulingTaskQueue.run` (lines 206-213): the `_running_task` storage
hook, then the thread creation and start, under the lock. -/
def SchedulingTaskQueue.run (runningHook : Except PyError Unit)
    (threadStart : Except PyError Unit) (lock : Nat) : Except PyError Unit × Nat :=
  tryFinallyRelease (do runningHook; threadStart) (lockAcquire lock)

/-- `SchedulingTaskQueue.complete` (lines 215-220): the `_complete_task`
storage hook under the lock. -/
def SchedulingTaskQueue.complete (completeHook : Except PyError Unit) (lock : Nat) :
    Except PyError Unit × Nat :=
  tryFinallyRelease completeHook (lockAcquire lock)

/-- `SchedulingTaskQueue.find` (lines 222-230): the body first evaluates
`self._lock.aqcuire()` — an attribute lookup on the `RLock` object — and
only then scans `_all_tasks()` for the first task with the given id. -/
def SchedulingTaskQueue.find (tasks : List Nat) (task_id : Nat) :
    Except PyError (Option Nat) :=
  match callMethod rlockMethods ("aqcuire") 0 with
  | Except.error e => Except.error e
  | Except.ok _ => Except.ok (tasks.find? (fun t => t == task_id))

/-- In-memory backend `VolatileTaskQueue` (lines 234-265): the three task
collections `_waiting_tasks`, `_running_tasks`, `_complete_tasks`. -/
structure VolatileTaskQueue where
  waiting_tasks : List Nat
  running_tasks : List Nat
  complete_tasks : List Nat
deriving DecidableEq, Repr

/-- `VolatileTaskQueue.__init__` (lines 238-241): three empty collections. -/
def VolatileTaskQueue.init : VolatileTaskQueue :=
  ⟨[], [], []⟩

/-- `VolatileTaskQueue._waiting_task` (lines 243-244): append to waiting. -/
def VolatileTaskQueue.waiting_task (q : VolatileTaskQueue) (task : Nat) :
    Except PyError VolatileTaskQueue :=
  Except.ok { q with waiting_tasks := q.waiting_tasks ++ [task] }

/-- `VolatileTaskQueue._running_task` (lines 246-248):
`self._waiting_tasks.remove(task)` then append to running. -/
def VolatileTaskQueue.running_task (q : VolatileTaskQueue) (task : Nat) :
    Except PyError VolatileTaskQueue := do
  let w ← pyListRemove q.waiting_tasks task
  Except.ok { q with waiting_tasks := w, running_tasks := q.running_tasks ++ [task] }

/-- `VolatileTaskQueue._complete_task` (lines 250-252):
`self._running_tasks.remove(task)` then append to complete. -/
def VolatileTaskQueue.complete_task (q : VolatileTaskQueue) (task : Nat) :
    Except PyError VolatileTaskQueue := do
  let r ← pyListRemove q.running_tasks task
  Except.ok { q with running_tasks := r, complete_tasks := q.complete_tasks ++ [task] }

/-- `VolatileTaskQueue._remove_task` (lines 254-260): for each collection,
remove the (first occurrence of the) task if it is present; never raises. -/
def VolatileTaskQueue.remove_task (q : VolatileTaskQueue) (task : Nat) :
    VolatileTaskQueue :=
  let w := if task ∈ q.waiting_tasks then q.waiting_tasks.erase task else q.waiting_tasks
  let r := if task ∈ q.running_tasks then q.running_tasks.erase task else q.running_tasks
  let c := if task ∈ q.complete_tasks then q.complete_tasks.erase task else q.complete_tasks
  ⟨w, r, c⟩

/-- `itertools.chain`: yield the members of each iterable in order. -/
def itertoolsChain (ls : List (List Nat)) : List Nat :=
  ls.flatten

/-- `VolatileTaskQueue._all_tasks` (lines 262-265):
`itertools.chain(waiting, running, complete)`. -/
def VolatileTaskQueue.all_tasks (q : VolatileTaskQueue) : List Nat :=
  itertoolsChain [q.waiting_tasks, q.running_tasks, q.complete_tasks]

/-- Durable backend `PersistentTaskQueue` (lines 269-289): stores only its
database handle. -/
structure PersistentTaskQueue (DB : Type) where
  db : DB

/-- `PersistentTaskQueue._waiting_task` (lines 276-277). -/
def PersistentTaskQueue.waiting_task {DB : Type} (q : PersistentTaskQueue DB) (task : Nat) :
    Except PyError Unit :=
  Except.error PyError.notImplementedError

/-- `PersistentTaskQueue._running_task` (lines 279-280). -/
def PersistentTaskQueue.running_task {DB : Type} (q : PersistentTaskQueue DB) (task : Nat) :
    Except PyError Unit :=
  Except.error PyError.notImplementedError

/-- `PersistentTaskQueue._complete_task` (lines 282-283). -/
def PersistentTaskQueue.complete_task {DB : Type} (q : PersistentTaskQueue DB) (task : Nat) :
    Except PyError Unit :=
  Except.error PyError.notImplementedError

/-- `PersistentTaskQueue._remove_task` (lines 285-286). -/
def PersistentTaskQueue.remove_task {DB : Type} (q : PersistentTaskQueue DB) (task : Nat) :
    Except PyError Unit :=
  Except.error PyError.notImplementedError

/-- `PersistentTaskQueue._all_tasks` (lines 288-289). -/
def PersistentTaskQueue.all_tasks {DB : Type} (q : PersistentTaskQueue DB) :
    Except PyError (List Nat) :=
  Except.error PyError.notImplementedError

/-- One storage-hook call of the in-memory backend. -/
inductive QueueOp where
  | waiting (task : Nat)
  | running (task : Nat)
  | complete (task : Nat)
  | remove (task : Nat)
deriving DecidableEq, Repr

/-- Apply one storage-hook call to the backend state. -/
def applyOp (q : VolatileTaskQueue) : QueueOp → Except PyError VolatileTaskQueue
  | QueueOp.waiting t => q.waiting_task t
  | QueueOp.running t => q.running_task t
  | QueueOp.complete t => q.complete_task t
  | QueueOp.remove t => Except.ok (q.remove_task t)

/-- The stated precondition of each hook: record-as-waiting only for a task
absent from all collections, record-as-running only for a task in Waiting,
record-as-complete only for a task in Running, remove unconditionally. -/
def opPre (q : VolatileTaskQueue) : QueueOp → Bool
  | QueueOp.waiting t =>
    !(q.waiting_tasks.contains t) && !(q.running_tasks.contains t) &&
      !(q.complete_tasks.contains t)
  | QueueOp.running t => q.waiting_tasks.contains t
  | QueueOp.complete t => q.running_tasks.contains t
  | QueueOp.remove _ => true

/-- Execution of a sequence of storage-hook calls, each made under its stated
precondition and succeeding. -/
inductive ValidExec : VolatileTaskQueue → List QueueOp → VolatileTaskQueue → Prop where
  | nil (q : VolatileTaskQueue) : ValidExec q [] q
  | cons {q q1 q2 : VolatileTaskQueue} {op : QueueOp} {ops : List QueueOp} :
      opPre q op = true → applyOp q op = Except.ok q1 → ValidExec q1 ops q2 →
      ValidExec q (op :: ops) q2

/-- Every task occurs at most once across the three collections together. -/
def atMostOnce (q : VolatileTaskQueue) : Prop :=
  ∀ t, q.waiting_tasks.count t + q.running_tasks.count t + q.complete_tasks.count t ≤ 1

/-- Binding a successful `Except` computation applies the continuation. -/
theorem except_bind_ok {α β : Type} (a : α) (f : α → Except PyError β) :
    (Except.ok a >>= f) = f a := rfl

/-- Binding a raised `Except` computation propagates the exception. -/
theorem except_bind_error {α β : Type} (e : PyError) (f : α → Except PyError β) :
    ((Except.error e : Except PyError α) >>= f) = Except.error e := rfl

/-- `pyListRemove` succeeds exactly on membership and then erases the first
occurrence. -/
theorem pyListRemove_eq (l : List Nat) (x : Nat) :
    pyListRemove l x =
      if x ∈ l then Except.ok (l.erase x) else Except.error PyError.valueError := by
  induction l with
  | nil => simp [pyListRemove]
  | cons y ys ih =>
    by_cases h : y = x
    · subst h
      simp [pyListRemove]
    · have hbeq : ¬((y == x) = true) := by simp [h]
      simp only [pyListRemove, if_neg h, ih]
      by_cases hx : x ∈ ys
      · simp [hx, List.erase_cons_tail hbeq, Except.map, List.mem_cons]
      · have hxy : ¬(x = y) := fun hh => h hh.symm
        simp [hx, hxy, Except.map, List.mem_cons]

/-- The `finally` clause releases the lock on the normal and the raising
path alike. -/
theorem tryFinallyRelease_snd {α : Type} (body : Except PyError α) (lock : Nat) :
    (tryFinallyRelease body lock).2 = lockRelease lock := by
  cases body <;> rfl

/-- A conditional first-occurrence removal never increases any count. -/
theorem count_condErase_le (l : List Nat) (t x : Nat) :
    ((if t ∈ l then l.erase t else l).count x) ≤ l.count x := by
  split
  · exact (List.erase_sublist t l).count_le x
  · exact Nat.le_refl _

/-- When a task occurs at most once in a collection, the conditional
first-occurrence removal leaves it absent. -/
theorem notMem_condErase {l : List Nat} {t : Nat} (h : l.count t ≤ 1) :
    t ∉ (if t ∈ l then l.erase t else l) := by
  by_cases hm : t ∈ l
  · rw [if_pos hm]
    have h1 : l.count t = 1 := Nat.le_antisymm h (List.count_pos_iff.mpr hm)
    have h0 : (l.erase t).count t = 0 := by rw [List.count_erase_self, h1]
    exact List.count_eq_zero.mp h0
  · rw [if_neg hm]
    exact hm

/-- Erasing the first occurrence of `t` leaves the elements different from
`t`, and their relative order, unchanged. -/
theorem filter_erase_ne (l : List Nat) (t : Nat) :
    (l.erase t).filter (fun y => y != t) = l.filter (fun y => y != t) := by
  induction l with
  | nil => rfl
  | cons y ys ih =>
    by_cases h : y = t
    · subst h
      simp [List.filter_cons]
    · rw [List.erase_cons_tail (by simpa using h)]
      simp [List.filter_cons, h, ih]

/-- The conditional first-occurrence removal leaves the elements different
from `t`, and their relative order, unchanged. -/
theorem filter_condErase (l : List Nat) (t : Nat) :
    ((if t ∈ l then l.erase t else l).filter (fun y => y != t)) =
      l.filter (fun y => y != t) := by
  split
  · exact filter_erase_ne l t
  · rfl

/-- `_remove_task` on a task absent from all three collections is the
identity. -/
theorem remove_task_absent {q : VolatileTaskQueue} {t : Nat}
    (hw : t ∉ q.waiting_tasks) (hr : t ∉ q.running_tasks)
    (hc : t ∉ q.complete_tasks) : q.remove_task t = q := by
  cases q with
  | mk w r c => simp [VolatileTaskQueue.remove_task, hw, hr, hc]

/-- Each storage-hook call made under its precondition preserves the
at-most-once invariant. -/
theorem applyOp_atMostOnce {q q' : VolatileTaskQueue} {op : QueueOp}
    (hpre : opPre q op = true) (happ : applyOp q op = Except.ok q')
    (hinv : atMostOnce q) : atMostOnce q' := by
  cases op with
  | waiting t =>
    simp [opPre] at hpre
    obtain ⟨⟨hW, hR⟩, hC⟩ := hpre
    simp [applyOp, VolatileTaskQueue.waiting_task] at happ
    subst happ
    intro x
    by_cases hx : x = t
    · subst hx
      simp [List.count_append, List.count_cons, List.count_nil,
        List.count_eq_zero.mpr hW, List.count_eq_zero.mpr hR, List.count_eq_zero.mpr hC]
    · have h2 := hinv x
      have hne : t ≠ x := fun hh => hx hh.symm
      simp [List.count_append, List.count_cons, List.count_nil, hne]
      omega
  | running t =>
    simp [opPre] at hpre
    simp [applyOp, VolatileTaskQueue.running_task, pyListRemove_eq, hpre,
      except_bind_ok] at happ
    subst happ
    have h1 := hinv t
    have hWpos : 0 < q.waiting_tasks.count t := List.count_pos_iff.mpr hpre
    intro x
    by_cases hx : x = t
    · subst hx
      simp [List.count_append, List.count_erase_self, List.count_cons,
        List.count_nil]
      omega
    · have h2 := hinv x
      have hne : t ≠ x := fun hh => hx hh.symm
      simp [List.count_append, List.count_erase_of_ne hx, List.count_cons,
        List.count_nil, hne]
      omega
  | complete t =>
    simp [opPre] at hpre
    simp [applyOp, VolatileTaskQueue.complete_task, pyListRemove_eq, hpre,
      except_bind_ok] at happ
    subst happ
    have h1 := hinv t
    have hRpos : 0 < q.running_tasks.count t := List.count_pos_iff.mpr hpre
    intro x
    by_cases hx : x = t
    · subst hx
      simp [List.count_append, List.count_erase_self, List.count_cons,
        List.count_nil]
      omega
    · have h2 := hinv x
      have hne : t ≠ x := fun hh => hx hh.symm
      simp [List.count_append, List.count_erase_of_ne hx, List.count_cons,
        List.count_nil, hne]
      omega
  | remove t =>
    simp [applyOp] at happ
    subst happ
    intro x
    have h2 := hinv x
    have hw := count_condErase_le q.waiting_tasks t x
    have hr := count_condErase_le q.running_tasks t x
    have hc := count_condErase_le q.complete_tasks t x
    simp only [VolatileTaskQueue.remove_task]
    omega

/-- A valid execution preserves the at-most-once invariant. -/
theorem validExec_atMostOnce {q q' : VolatileTaskQueue} {ops : List QueueOp}
    (h : ValidExec q ops q') (hinv : atMostOnce q) : atMostOnce q' := by
  induction h with
  | nil => exact hinv
  | cons hpre happ _ ih => exact ih (applyOp_atMostOnce hpre happ hinv)

/-- The empty backend satisfies the at-most-once invariant. -/
theorem init_atMostOnce : atMostOnce VolatileTaskQueue.init := by
  intro x
  simp [VolatileTaskQueue.init]

/-- C1: starting from the empty in-memory backend, after any sequence of
storage-hook calls made under their stated preconditions (record-as-waiting
only on a task absent from all collections, record-as-running only on a task
in Waiting, record-as-complete only on a task in Running), every task
belongs to at most one of the waiting, running, and complete collections. -/
theorem volatile_hooks_at_most_one_collection {ops : List QueueOp}
    {q : VolatileTaskQueue} (h : ValidExec VolatileTaskQueue.init ops q) (t : Nat) :
    ¬(t ∈ q.waiting_tasks ∧ t ∈ q.running_tasks) ∧
    ¬(t ∈ q.waiting_tasks ∧ t ∈ q.complete_tasks) ∧
    ¬(t ∈ q.running_tasks ∧ t ∈ q.complete_tasks) := by
  have hinv : atMostOnce q := validExec_atMostOnce h init_atMostOnce
  have ht := hinv t
  refine ⟨?_, ?_, ?_⟩ <;> rintro ⟨h1, h2⟩ <;>
    have c1 := List.count_pos_iff.mpr h1 <;>
    have c2 := List.count_pos_iff.mpr h2 <;>
    omega

/-- C1 witness: waiting then running on task 1 from the empty backend. -/
theorem volatile_hooks_at_most_one_collection_witness :
    ¬((1 : Nat) ∈ ([] : List Nat) ∧ (1 : Nat) ∈ ([1] : List Nat)) ∧
    ¬((1 : Nat) ∈ ([] : List Nat) ∧ (1 : Nat) ∈ ([] : List Nat)) ∧
    ¬((1 : Nat) ∈ ([1] : List Nat) ∧ (1 : Nat) ∈ ([] : List Nat)) :=
  volatile_hooks_at_most_one_collection
    (@ValidExec.cons VolatileTaskQueue.init ⟨[1], [], []⟩ ⟨[], [1], []⟩
      (QueueOp.waiting 1) [QueueOp.running 1] (by decide) rfl
      (@ValidExec.cons ⟨[1], [], []⟩ ⟨[], [1], []⟩ ⟨[], [1], []⟩
        (QueueOp.running 1) [] (by decide) rfl
        (ValidExec.nil ⟨[], [1], []⟩))) 1

/-- C2 (code-bug evidence): the dispatch cycle's first hook call raises
`AttributeError`, because `_dispatch` invokes `_initial_runs` while the
defined pre-cycle hook is `_initialize_runs`; the loop also passes a task to
`_pre_run` and `_post_run`, whose default definitions accept no task
(`TypeError`), and invokes `_run`, which no class in the file defines,
while the intended `_initialize_runs` hook itself is invocable as defined. -/
theorem dispatch_cycle_raises :
    runCalls schedulingTaskQueueMethods dispatchCycleCalls =
      Except.error (PyError.attributeError ("_initial_runs")) ∧
    callMethod schedulingTaskQueueMethods ("_pre_run") 1 =
      Except.error (PyError.typeError ("_pre_run")) ∧
    callMethod schedulingTaskQueueMethods ("_run") 1 =
      Except.error (PyError.attributeError ("_run")) ∧
    callMethod schedulingTaskQueueMethods ("_post_run") 1 =
      Except.error (PyError.typeError ("_post_run")) ∧
    callMethod schedulingTaskQueueMethods ("_initialize_runs") 0 = Except.ok () :=
  ⟨rfl, rfl, rfl, rfl, rfl⟩

/-- C3 (code-bug evidence): `SchedulingTaskQueue.find` evaluates the
misspelled `self._lock.aqcuire()` and therefore raises `AttributeError` on
every call — for every backend contents and every task id — instead of
returning the first matching task or `None`. -/
theorem find_always_raises_attribute_error (tasks : List Nat) (task_id : Nat) :
    SchedulingTaskQueue.find tasks task_id =
      Except.error (PyError.attributeError ("aqcuire")) := rfl

/-- C4 counterexample: on a task absent from Waiting, the record-as-running
hook raises `ValueError`; it is not a silent no-op returning the unchanged
collections. -/
theorem running_task_absent_counterexample :
    VolatileTaskQueue.running_task VolatileTaskQueue.init 0 =
      Except.error PyError.valueError ∧
    VolatileTaskQueue.running_task VolatileTaskQueue.init 0 ≠
      Except.ok VolatileTaskQueue.init := by
  refine ⟨rfl, ?_⟩
  simp [VolatileTaskQueue.running_task, VolatileTaskQueue.init, pyListRemove,
    except_bind_error]

/-- C4 amended: for every task not currently in the in-memory backend's
Waiting collection, the record-as-running hook raises `ValueError` (from
`list.remove`), producing no updated collections, rather than no-opping. -/
theorem running_task_absent_raises (q : VolatileTaskQueue) (t : Nat)
    (h : t ∉ q.waiting_tasks) :
    q.running_task t = Except.error PyError.valueError := by
  simp [VolatileTaskQueue.running_task, pyListRemove_eq, h, except_bind_error]

/-- C4 witness: the amended statement at the empty backend and task 0. -/
theorem running_task_absent_raises_witness :
    (0 : Nat) ∉ VolatileTaskQueue.init.waiting_tasks ∧
    VolatileTaskQueue.init.running_task 0 = Except.error PyError.valueError :=
  ⟨by decide, running_task_absent_raises VolatileTaskQueue.init 0 (by decide)⟩

/-- C5 counterexample: `SimpleTaskQueue.enqueue` on task 0 only calls
`task.waiting()`; no `run` call occurs before it returns, so the operation
is not executed synchronously during `enqueue`. -/
theorem simple_enqueue_counterexample :
    SimpleTaskQueue.enqueue 0 = [TaskCall.waiting 0] ∧
    TaskCall.run 0 ∉ SimpleTaskQueue.enqueue 0 := by
  refine ⟨rfl, ?_⟩
  simp [SimpleTaskQueue.enqueue]

/-- C5 amended: `enqueue` transitions the task to Waiting and returns without
invoking `run`; the queue's separate `run` operation is what invokes the
task's operation, synchronously on the caller's thread of control. -/
theorem simple_enqueue_then_run (task : Nat) :
    SimpleTaskQueue.enqueue task = [TaskCall.waiting task] ∧
    TaskCall.run task ∉ SimpleTaskQueue.enqueue task ∧
    SimpleTaskQueue.run task = [TaskCall.run task] := by
  refine ⟨rfl, ?_, rfl⟩
  simp [SimpleTaskQueue.enqueue]

/-- C6 counterexample: with task 0 duplicated inside the Waiting collection,
the remove hook deletes only the first occurrence, so a second application
removes more than the first did. -/
theorem remove_task_not_idempotent_counterexample :
    VolatileTaskQueue.remove_task (VolatileTaskQueue.remove_task ⟨[0, 0], [], []⟩ 0) 0 ≠
      VolatileTaskQueue.remove_task ⟨[0, 0], [], []⟩ 0 := by
  decide

/-- C6 amended: the remove hook is idempotent on every backend state in which
the task occurs at most once per collection, and applying it to a task absent
from all three collections leaves the collections unchanged. -/
theorem remove_task_idempotent (q : VolatileTaskQueue) (t : Nat) :
    (q.waiting_tasks.count t ≤ 1 → q.running_tasks.count t ≤ 1 →
      q.complete_tasks.count t ≤ 1 →
      (q.remove_task t).remove_task t = q.remove_task t) ∧
    (t ∉ q.waiting_tasks → t ∉ q.running_tasks → t ∉ q.complete_tasks →
      q.remove_task t = q) := by
  constructor
  · intro hw hr hc
    exact remove_task_absent (notMem_condErase hw) (notMem_condErase hr)
      (notMem_condErase hc)
  · intro hw hr hc
    exact remove_task_absent hw hr hc

/-- C6 witness: idempotence at a duplicate-free state and the no-op on an
absent task. -/
theorem remove_task_idempotent_witness :
    (VolatileTaskQueue.remove_task (VolatileTaskQueue.remove_task ⟨[0], [1], []⟩ 0) 0 =
      VolatileTaskQueue.remove_task ⟨[0], [1], []⟩ 0) ∧
    VolatileTaskQueue.remove_task ⟨[5], [], []⟩ 9 = ⟨[5], [], []⟩ :=
  ⟨(remove_task_idempotent ⟨[0], [1], []⟩ 0).1 (by decide) (by decide) (by decide),
   (remove_task_idempotent ⟨[5], [], []⟩ 9).2 (by decide) (by decide) (by decide)⟩

/-- C7: the enumerate-all hook yields exactly the Waiting collection, then
the Running collection, then the Complete collection, concatenated in that
order. -/
theorem all_tasks_eq_concat (q : VolatileTaskQueue) :
    q.all_tasks = q.waiting_tasks ++ q.running_tasks ++ q.complete_tasks := by
  simp [VolatileTaskQueue.all_tasks, itertoolsChain]

/-- C8: every public operation and storage hook of the abstract `TaskQueue`
base class, and every storage hook of `PersistentTaskQueue`, raises the
unimplemented-capability error (`NotImplementedError`) when invoked without
being overridden. -/
theorem abstract_methods_raise_unimplemented :
    (∀ task : Nat, TaskQueue.waiting_task task = Except.error PyError.notImplementedError) ∧
    (∀ task : Nat, TaskQueue.running_task task = Except.error PyError.notImplementedError) ∧
    (∀ task : Nat, TaskQueue.complete_task task = Except.error PyError.notImplementedError) ∧
    (∀ task : Nat, TaskQueue.remove_task task = Except.error PyError.notImplementedError) ∧
    TaskQueue.all_tasks = Except.error PyError.notImplementedError ∧
    (∀ task : Nat, TaskQueue.enqueue task = Except.error PyError.notImplementedError) ∧
    (∀ task : Nat, TaskQueue.run task = Except.error PyError.notImplementedError) ∧
    (∀ task : Nat, TaskQueue.complete task = Except.error PyError.notImplementedError) ∧
    (∀ task_id : Nat, TaskQueue.find task_id = Except.error PyError.notImplementedError) ∧
    (∀ (DB : Type) (q : PersistentTaskQueue DB) (task : Nat),
      q.waiting_task task = Except.error PyError.notImplementedError ∧
      q.running_task task = Except.error PyError.notImplementedError ∧
      q.complete_task task = Except.error PyError.notImplementedError ∧
      q.remove_task task = Except.error PyError.notImplementedError ∧
      q.all_tasks = Except.error PyError.notImplementedError) :=
  ⟨fun _ => rfl, fun _ => rfl, fun _ => rfl, fun _ => rfl, rfl, fun _ => rfl,
   fun _ => rfl, fun _ => rfl, fun _ => rfl,
   fun _ _ _ => ⟨rfl, rfl, rfl, rfl, rfl⟩⟩

/-- C9: `SchedulingTaskQueue.enqueue`, `run` and `complete` restore the
lock's hold count on every exit path — whether the task bookkeeping, the
storage hook, or the thread start succeeds or raises. -/
theorem scheduling_ops_release_lock (taskWaiting waitingHook runningHook
    threadStart completeHook : Except PyError Unit) (lock : Nat) :
    (SchedulingTaskQueue.enqueue taskWaiting waitingHook lock).2 = lock ∧
    (SchedulingTaskQueue.run runningHook threadStart lock).2 = lock ∧
    (SchedulingTaskQueue.complete completeHook lock).2 = lock := by
  refine ⟨?_, ?_, ?_⟩ <;>
    simp [SchedulingTaskQueue.enqueue, SchedulingTaskQueue.run,
      SchedulingTaskQueue.complete, tryFinallyRelease_snd, lockAcquire, lockRelease]

/-- C10 counterexample: with task 0 duplicated inside the Waiting collection,
one application of the remove hook leaves an occurrence of 0 behind. -/
theorem remove_task_duplicate_counterexample :
    (0 : Nat) ∈ (VolatileTaskQueue.remove_task ⟨[0, 0], [], []⟩ 0).waiting_tasks := by
  decide

/-- C10 amended: provided the task occurs at most once in each collection
(in particular when it is erroneously present in several collections at
once), after the remove hook it is absent from all three; unconditionally,
every other task keeps its collection membership and its relative order
within its collection. -/
theorem remove_task_removes_everywhere (q : VolatileTaskQueue) (t : Nat) :
    (q.waiting_tasks.count t ≤ 1 → q.running_tasks.count t ≤ 1 →
      q.complete_tasks.count t ≤ 1 →
      t ∉ (q.remove_task t).waiting_tasks ∧ t ∉ (q.remove_task t).running_tasks ∧
        t ∉ (q.remove_task t).complete_tasks) ∧
    ((q.remove_task t).waiting_tasks.filter (fun y => y != t) =
        q.waiting_tasks.filter (fun y => y != t) ∧
      (q.remove_task t).running_tasks.filter (fun y => y != t) =
        q.running_tasks.filter (fun y => y != t) ∧
      (q.remove_task t).complete_tasks.filter (fun y => y != t) =
        q.complete_tasks.filter (fun y => y != t)) := by
  constructor
  · intro hw hr hc
    exact ⟨notMem_condErase hw, notMem_condErase hr, notMem_condErase hc⟩
  · exact ⟨filter_condErase q.waiting_tasks t, filter_condErase q.running_tasks t,
      filter_condErase q.complete_tasks t⟩

/-- C10 witness: the amended statement at state `⟨[0, 1], [2], []⟩`, task 0. -/
theorem remove_task_removes_everywhere_witness :
    ((0 : Nat) ∉ (VolatileTaskQueue.remove_task ⟨[0, 1], [2], []⟩ 0).waiting_tasks ∧
      (0 : Nat) ∉ (VolatileTaskQueue.remove_task ⟨[0, 1], [2], []⟩ 0).running_tasks ∧
      (0 : Nat) ∉ (VolatileTaskQueue.remove_task ⟨[0, 1], [2], []⟩ 0).complete_tasks) ∧
    ((VolatileTaskQueue.remove_task ⟨[0, 1], [2], []⟩ 0).waiting_tasks.filter
        (fun y => y != 0) = [0, 1].filter (fun y => y != 0) ∧
      (VolatileTaskQueue.remove_task ⟨[0, 1], [2], []⟩ 0).running_tasks.filter
        (fun y => y != 0) = [2].filter (fun y => y != 0) ∧
      (VolatileTaskQueue.remove_task ⟨[0, 1], [2], []⟩ 0).complete_tasks.filter
        (fun y => y != 0) = List.filter (fun y => y != 0) []) :=
  ⟨(remove_task_removes_everywhere ⟨[0, 1], [2], []⟩ 0).1
      (by decide) (by decide) (by decide),
   (remove_task_removes_everywhere ⟨[0, 1], [2], []⟩ 0).2⟩

end Pulp
